import Mathlib

/-! POSIX directory iteration on top of the Win32 search API.

A shallow embedding of `common/cs_dirent.c` (`opendir`, `readdir`,
`closedir`).  The C functions run against the operating system; here the
operating system is an explicit value:

* `Native σ` collects the behaviour of every external call the file makes
  (`MG_MALLOC`, `GetFileAttributesW`, `FindFirstFileW`, `FindNextFileW`,
  `FindClose`, `WideCharToMultiByte`, `to_wchar`) as functions over a hidden
  operating-system state `σ`;
* `Sys σ` is the state threaded through the code: the hidden state, the
  thread's last-error slot and the chronological log of external calls.

A `DIR *` is `Option win32_dir` (`none` is `NULL`); the structure behind the
pointer is passed and returned by value.  `opendir` appends to the fixed
buffer `wchar_t wpath[MAX_PATH]`; a call in which `wcscat` would write past
its end has no defined behaviour and comes to `Opened.undefined`.
-/

namespace CsDirent

/-! ## Constants of the Windows headers -/

/-- Win32 error code `ERROR_FILE_NOT_FOUND`. -/
def ERROR_FILE_NOT_FOUND : Nat := 2

/-- Win32 error code `ERROR_PATH_NOT_FOUND`. -/
def ERROR_PATH_NOT_FOUND : Nat := 3

/-- Win32 error code `ERROR_NOT_ENOUGH_MEMORY`. -/
def ERROR_NOT_ENOUGH_MEMORY : Nat := 8

/-- Win32 error code `ERROR_NO_MORE_FILES`. -/
def ERROR_NO_MORE_FILES : Nat := 18

/-- Win32 error code `ERROR_INSUFFICIENT_BUFFER`. -/
def ERROR_INSUFFICIENT_BUFFER : Nat := 122

/-- Win32 error code `ERROR_BAD_ARGUMENTS`. -/
def ERROR_BAD_ARGUMENTS : Nat := 160

/-- Win32 error code `ERROR_DIRECTORY` (the directory name is invalid). -/
def ERROR_DIRECTORY : Nat := 267

/-- The value `(HANDLE) -1`. -/
def INVALID_HANDLE_VALUE : Int := -1

/-- Attribute bit `FILE_ATTRIBUTE_DIRECTORY`. -/
def FILE_ATTRIBUTE_DIRECTORY : Nat := 0x10

/-- The value `GetFileAttributesW` returns on failure, written `0xFFFFFFFF` in the source. -/
def INVALID_FILE_ATTRIBUTES : Nat := 0xFFFFFFFF

/-- The constant `MAX_PATH`, the number of elements of `wchar_t wpath[MAX_PATH]`. -/
def MAX_PATH : Nat := 260

/-! ## Data model -/

/-- The part of `WIN32_FIND_DATAW` the code reads: the wide-character file name. -/
structure WIN32_FIND_DATAW where
  cFileName : List Nat
deriving DecidableEq, Repr

/-- The entry handed back to the caller: `struct dirent`, a byte buffer `d_name`. -/
structure dirent where
  d_name : List Nat
deriving DecidableEq, Repr

/-- The structure behind a `DIR *`: `struct win32_dir` (its unused `DIR d` member left out). -/
structure win32_dir where
  handle : Int
  info : WIN32_FIND_DATAW
  result : dirent
deriving DecidableEq, Repr

/-- One external call, as recorded in the log.  A `malloc` entry records
whether the call returned storage (`true`) or `NULL` (`false`). -/
inductive Event where
  | SetLastError (code : Nat)
  | malloc (ok : Bool)
  | free
  | GetFileAttributesW (wpath : List Nat)
  | FindFirstFileW (pattern : List Nat)
  | FindNextFileW (h : Int)
  | FindClose (h : Int)
  | WideCharToMultiByte (src : List Nat)
deriving DecidableEq, Repr

/-- The state the code runs in: hidden operating-system state, last-error slot, call log. -/
structure Sys (σ : Type) where
  os : σ
  lastError : Nat
  trace : List Event
deriving DecidableEq, Repr

/-- The behaviour of the external calls.  Every call may change the hidden
state and may overwrite the last-error slot (`some e`) or leave it (`none`).
`d_name_size` is `sizeof(d_name)`, fixed by the header `cs_dirent.h`.
`to_wchar name` is the wide string `to_wchar(name, wpath, ARRAY_SIZE(wpath))`
leaves in `wpath`, without its terminating NUL; `to_wchar` is given the size
of `wpath` and is taken to keep to it. -/
structure Native (σ : Type) where
  d_name_size : Nat
  to_wchar : List Nat → List Nat
  malloc : σ → Option win32_dir × σ
  free : σ → σ
  GetFileAttributesW : σ → List Nat → Nat × σ × Option Nat
  FindFirstFileW : σ → List Nat → (Int × WIN32_FIND_DATAW) × σ × Option Nat
  FindNextFileW : σ → Int → WIN32_FIND_DATAW → (Bool × WIN32_FIND_DATAW) × σ × Option Nat
  FindClose : σ → Int → Bool × σ × Option Nat
  WideCharToMultiByte : List Nat → List Nat → List Nat × Option Nat

variable {σ : Type}

/-- The effect of an external call on the last-error slot. -/
def setErr (e : Option Nat) (old : Nat) : Nat :=
  match e with
  | some c => c
  | none => old

/-! ## External calls, logged -/

/-- The call `SetLastError(code)`. -/
def SetLastError (code : Nat) (s : Sys σ) : Sys σ :=
  { s with lastError := code, trace := s.trace ++ [Event.SetLastError code] }

/-- The call `MG_MALLOC(sizeof(*dir))`: fresh storage with arbitrary contents, or `NULL`. -/
def MG_MALLOC (env : Native σ) (s : Sys σ) : Option win32_dir × Sys σ :=
  let r := env.malloc s.os
  (r.1, { s with os := r.2, trace := s.trace ++ [Event.malloc r.1.isSome] })

/-- The call `MG_FREE(dir)`. -/
def MG_FREE (env : Native σ) (s : Sys σ) : Sys σ :=
  { s with os := env.free s.os, trace := s.trace ++ [Event.free] }

/-- The call `GetFileAttributesW(wpath)`. -/
def GetFileAttributesW (env : Native σ) (s : Sys σ) (wpath : List Nat) : Nat × Sys σ :=
  let r := env.GetFileAttributesW s.os wpath
  (r.1, { os := r.2.1, lastError := setErr r.2.2 s.lastError,
          trace := s.trace ++ [Event.GetFileAttributesW wpath] })

/-- The call `FindFirstFileW(wpath, &dir->info)`. -/
def FindFirstFileW (env : Native σ) (s : Sys σ) (wpath : List Nat) :
    (Int × WIN32_FIND_DATAW) × Sys σ :=
  let r := env.FindFirstFileW s.os wpath
  (r.1, { os := r.2.1, lastError := setErr r.2.2 s.lastError,
          trace := s.trace ++ [Event.FindFirstFileW wpath] })

/-- The call `FindNextFileW(h, &dir->info)`. -/
def FindNextFileW (env : Native σ) (s : Sys σ) (h : Int) (info : WIN32_FIND_DATAW) :
    (Bool × WIN32_FIND_DATAW) × Sys σ :=
  let r := env.FindNextFileW s.os h info
  (r.1, { os := r.2.1, lastError := setErr r.2.2 s.lastError,
          trace := s.trace ++ [Event.FindNextFileW h] })

/-- The call `FindClose(h)`. -/
def FindClose (env : Native σ) (s : Sys σ) (h : Int) : Bool × Sys σ :=
  let r := env.FindClose s.os h
  (r.1, { os := r.2.1, lastError := setErr r.2.2 s.lastError,
          trace := s.trace ++ [Event.FindClose h] })

/-- The call `WideCharToMultiByte(CP_UTF8, 0, src, -1, buf, sizeof buf, NULL, NULL)`:
the new contents of `buf`. -/
def WideCharToMultiByte (env : Native σ) (s : Sys σ) (src buf : List Nat) :
    List Nat × Sys σ :=
  let r := env.WideCharToMultiByte src buf
  (r.1, { s with lastError := setErr r.2 s.lastError,
                 trace := s.trace ++ [Event.WideCharToMultiByte src] })

/-- The wide string `L"\\*"` appended to the path by `wcscat`. -/
def starSuffix : List Nat := [92, 42]

/-- The effect of `memset(&dir->result, 0, sizeof(dir->result))`. -/
def zeroed (env : Native σ) : dirent :=
  { d_name := List.replicate env.d_name_size 0 }

/-- What a call of `opendir` comes to: it returns a pointer (`none` for
`NULL`), or it has no defined behaviour because `wcscat` wrote past the end
of `wpath`. -/
inductive Opened where
  | returned (d : Option win32_dir)
  | undefined
deriving DecidableEq, Repr

/-- Whether `wcscat(wpath, L"\\*")` stays inside `wchar_t wpath[MAX_PATH]`:
the string in `wpath`, the two appended characters and the terminating NUL
take at most `MAX_PATH` elements. -/
@[reducible]
def wcscatFits (wpath : List Nat) : Prop :=
  wpath.length + starSuffix.length + 1 ≤ MAX_PATH

/-! ## The three functions -/

/-- The function `opendir` of `cs_dirent.c`.  When `wcscat` would write past
the end of `wpath` the call is `Opened.undefined`, with the state in which
`wcscat` is reached. -/
def opendir (env : Native σ) (s : Sys σ) (name : Option (List Nat)) :
    Opened × Sys σ :=
  match name with
  | none => (Opened.returned none, SetLastError ERROR_BAD_ARGUMENTS s)
  | some name =>
    match MG_MALLOC env s with
    | (none, s1) => (Opened.returned none, SetLastError ERROR_NOT_ENOUGH_MEMORY s1)
    | (some dir, s1) =>
      let wpath := env.to_wchar name
      let a := GetFileAttributesW env s1 wpath
      if a.1 ≠ INVALID_FILE_ATTRIBUTES ∧ a.1 &&& FILE_ATTRIBUTE_DIRECTORY ≠ 0 then
        if wcscatFits wpath then
          let f := FindFirstFileW env a.2 (wpath ++ starSuffix)
          let opened : win32_dir :=
            { handle := f.1.1, info := f.1.2, result := { d_name := dir.result.d_name.set 0 0 } }
          (Opened.returned (some opened), f.2)
        else
          (Opened.undefined, a.2)
      else
        (Opened.returned none, MG_FREE env a.2)

/-- The function `closedir` of `cs_dirent.c`. -/
def closedir (env : Native σ) (s : Sys σ) (d : Option win32_dir) : Int × Sys σ :=
  match d with
  | some dir =>
    if dir.handle ≠ INVALID_HANDLE_VALUE then
      let c := FindClose env s dir.handle
      ((if c.1 then 0 else -1), MG_FREE env c.2)
    else
      (0, MG_FREE env s)
  | none => (-1, SetLastError ERROR_BAD_ARGUMENTS s)

/-- The function `readdir` of `cs_dirent.c`.  Returns the entry (the contents
of `dir->result` when the pointer to it is returned, `none` for `NULL`), the
structure behind the handle after the call, and the new state. -/
def readdir (env : Native σ) (s : Sys σ) (d : Option win32_dir) :
    Option dirent × Option win32_dir × Sys σ :=
  match d with
  | some dir =>
    let dir1 : win32_dir := { dir with result := zeroed env }
    if dir1.handle ≠ INVALID_HANDLE_VALUE then
      let w := WideCharToMultiByte env s dir1.info.cFileName dir1.result.d_name
      let res : dirent := { d_name := w.1 }
      let n := FindNextFileW env w.2 dir1.handle dir1.info
      if !n.1.1 then
        let c := FindClose env n.2 dir1.handle
        (some res, some { handle := INVALID_HANDLE_VALUE, info := n.1.2, result := res }, c.2)
      else
        (some res, some { handle := dir1.handle, info := n.1.2, result := res }, n.2)
    else
      (none, some dir1, SetLastError ERROR_FILE_NOT_FOUND s)
  | none => (none, none, SetLastError ERROR_BAD_ARGUMENTS s)

/-- The entries returned by `k` consecutive `readdir` calls on one handle,
with the handle and the state after the last call. -/
def readdirs (env : Native σ) : Nat → Sys σ → Option win32_dir →
    List (Option dirent) × Option win32_dir × Sys σ
  | 0, s, d => ([], d, s)
  | k + 1, s, d =>
    let r := readdir env s d
    let rest := readdirs env k r.2.2 r.2.1
    (r.1 :: rest.1, rest.2)

/-- The name `readdir` hands back for the native name `src`: the zeroed
`d_name` buffer after `WideCharToMultiByte` has written into it. -/
def transcode (env : Native σ) (src : List Nat) : dirent :=
  { d_name := (env.WideCharToMultiByte src (zeroed env).d_name).1 }

/-- The native enumeration behind search handle `h` yields exactly the names
`es` from state `os` when `info` is the current find data: one successful
`FindNextFileW` per name, in order, and then a failing one. -/
def Enumerates (env : Native σ) (h : Int) : σ → WIN32_FIND_DATAW → List (List Nat) → Prop
  | os, info, [] => (env.FindNextFileW os h info).1.1 = false
  | os, info, e :: es =>
    (env.FindNextFileW os h info).1.1 = true ∧
    (env.FindNextFileW os h info).1.2.cFileName = e ∧
    Enumerates env h (env.FindNextFileW os h info).2.1 (env.FindNextFileW os h info).1.2 es

/-- How often `FindClose` was called on search handle `h` in a log. -/
def closeCount (h : Int) (t : List Event) : Nat :=
  t.count (Event.FindClose h)

/-- How often `MG_FREE` was called in a log. -/
def freeCount (t : List Event) : Nat :=
  t.count Event.free

/-- Whether a logged call is a `FindFirstFileW` call. -/
def isFindFirst : Event → Bool
  | Event.FindFirstFileW _ => true
  | _ => false

/-- How often `FindFirstFileW` was called in a log. -/
def findFirstCount (t : List Event) : Nat :=
  t.countP isFindFirst

/-- Whether a logged call is a `SetLastError` call, a write of the layer to
the last-error slot. -/
def isSetLastError : Event → Bool
  | Event.SetLastError _ => true
  | _ => false

/-- How often the layer called `SetLastError` in a log. -/
def setLastErrorCount (t : List Event) : Nat :=
  t.countP isSetLastError

/-- How often `MG_MALLOC` returned storage in a log. -/
def allocCount (t : List Event) : Nat :=
  t.count (Event.malloc true)

/-! ## The code page `CP_UTF8`

`readdir` asks `WideCharToMultiByte` for code page `CP_UTF8` with source
length `-1`: the name and its terminating NUL are converted. -/

/-- The UTF-8 bytes of the replacement character U+FFFD. -/
def replacement : List Nat := [0xEF, 0xBF, 0xBD]

/-- Whether a UTF-16 code unit is a high (leading) surrogate. -/
def isHigh (c : Nat) : Bool := decide (0xD800 ≤ c) && decide (c < 0xDC00)

/-- Whether a UTF-16 code unit is a low (trailing) surrogate. -/
def isLow (c : Nat) : Bool := decide (0xDC00 ≤ c) && decide (c < 0xE000)

/-- The UTF-8 bytes of a code unit that is not a high surrogate: one byte
below `0x80`, two below `0x800`, three otherwise; a lone low surrogate
becomes U+FFFD. -/
def unitBytes (c : Nat) : List Nat :=
  if c < 0x80 then [c]
  else if c < 0x800 then [0xC0 + c / 64, 0x80 + c % 64]
  else if isLow c then replacement
  else [0xE0 + c / 4096, 0x80 + c / 64 % 64, 0x80 + c % 64]

/-- The four UTF-8 bytes of the code point a surrogate pair stands for. -/
def pairBytes (h l : Nat) : List Nat :=
  let cp := 0x10000 + (h - 0xD800) * 0x400 + (l - 0xDC00)
  [0xF0 + cp / 262144, 0x80 + cp / 4096 % 64, 0x80 + cp / 64 % 64, 0x80 + cp % 64]

/-- UTF-8 encoding of UTF-16 code units, `hi` being a high surrogate read
just before and still waiting for its partner. -/
def utf8From (hi : Option Nat) : List Nat → List Nat
  | [] => if hi.isSome then replacement else []
  | c :: rest =>
    match hi with
    | some h =>
      if isLow c then pairBytes h c ++ utf8From none rest
      else if isHigh c then replacement ++ utf8From (some c) rest
      else replacement ++ unitBytes c ++ utf8From none rest
    | none =>
      if isHigh c then utf8From (some c) rest
      else unitBytes c ++ utf8From none rest

/-- The UTF-8 encoding of a name given as UTF-16 code units, the conversion
`CP_UTF8` selects; a surrogate without its partner becomes U+FFFD. -/
def utf8 (src : List Nat) : List Nat :=
  utf8From none src

/-- The part of the contract of `WideCharToMultiByte` the claims about names
rest on: when the UTF-8 encoding of the name and its terminating NUL fit in
the buffer, they are stored at its start and no other byte is written. -/
def StoresUtf8 (env : Native σ) : Prop :=
  ∀ src buf : List Nat, (utf8 src).length + 1 ≤ buf.length →
    (env.WideCharToMultiByte src buf).1 = utf8 src ++ 0 :: buf.drop ((utf8 src).length + 1)

/-- The conversion of the scripted operating system: the encoded name and its
NUL are stored as far as the buffer reaches; when they do not fit the call
fails with `ERROR_INSUFFICIENT_BUFFER` and the buffer is left filled. -/
def convert (src buf : List Nat) : List Nat × Option Nat :=
  ((utf8 src ++ [0]).take buf.length ++ buf.drop ((utf8 src).length + 1),
   if (utf8 src).length + 1 ≤ buf.length then none else some ERROR_INSUFFICIENT_BUFFER)

/-- The search handle `FindFirstFileW` returns inside `opendir` when the
allocation left the operating system in state `os1`: the call follows the
attribute lookup of the converted path and searches the path with `\\*`
appended. -/
def firstSearch (env : Native σ) (os1 : σ) (name : List Nat) : Int :=
  (env.FindFirstFileW (env.GetFileAttributesW os1 (env.to_wchar name)).2.1
    (env.to_wchar name ++ starSuffix)).1.1

/-- The handle and the state after `k` calls of `readdir` on the handle
`dir` that `opendir` returned in state `s1`. -/
def session (env : Native σ) (s1 : Sys σ) (dir : win32_dir) (k : Nat) :
    Option win32_dir × Sys σ :=
  (readdirs env k s1 (some dir)).2

/-- The status and the state after `k` calls of `readdir` on the handle
`dir` that `opendir` returned in state `s1`, and `closedir`. -/
def closedSession (env : Native σ) (s1 : Sys σ) (dir : win32_dir) (k : Nat) : Int × Sys σ :=
  closedir env (session env s1 dir k).2 (session env s1 dir k).1

/-! ## A scripted operating system

The hidden state is the list of names the open search has not delivered
yet.  It is used to run the code on concrete directories. -/

/-- A scripted operating system: `attrs` is what the attribute lookup
answers, `hval` the search handle `FindFirstFileW` hands out (with the first
name of the script), `closeOk` the answer of `FindClose`, `mem` what
`MG_MALLOC` returns.  Names are transcoded by `convert`. -/
def scripted (attrs : Nat) (hval : Int) (closeOk : Bool) (mem : Option win32_dir) :
    Native (List (List Nat)) where
  d_name_size := 8
  to_wchar := fun p => p
  malloc := fun os => (mem, os)
  free := fun os => os
  GetFileAttributesW := fun os _ =>
    (attrs, os, if attrs = INVALID_FILE_ATTRIBUTES then some ERROR_FILE_NOT_FOUND else none)
  FindFirstFileW := fun os _ =>
    match os with
    | [] => ((INVALID_HANDLE_VALUE, { cFileName := [] }), [], some ERROR_FILE_NOT_FOUND)
    | e :: es => ((hval, { cFileName := e }), es, none)
  FindNextFileW := fun os _ info =>
    match os with
    | [] => ((false, info), [], some ERROR_NO_MORE_FILES)
    | e :: es => ((true, { cFileName := e }), es, none)
  FindClose := fun os _ => (closeOk, os, none)
  WideCharToMultiByte := convert

/-- Uninitialised storage as `MG_MALLOC` may return it. -/
def garbage : win32_dir :=
  { handle := 7, info := { cFileName := [1, 2] }, result := { d_name := [9, 9, 9, 9, 9, 9, 9, 9] } }

/-- The start state over a scripted directory: last error `0`, empty log. -/
def start (entries : List (List Nat)) : Sys (List (List Nat)) :=
  { os := entries, lastError := 0, trace := [] }

/-- The path `D` as bytes. -/
def pathD : List Nat := [68]

/-- The names `a.txt` and `b.bin` as character codes. -/
def twoEntries : List (List Nat) := [[97, 46, 116, 120, 116], [98, 46, 98, 105, 110]]

/-- The scripted operating system of the concrete scenarios: the path is a
directory, searches get handle `42`, `FindClose` succeeds. -/
def envD : Native (List (List Nat)) := scripted 0x10 42 true (some garbage)

/-- A scripted operating system on which `FindClose` reports failure. -/
def envCloseFails : Native (List (List Nat)) := scripted 0x10 42 false (some garbage)

/-- A scripted operating system on which the path names a regular file
(`FILE_ATTRIBUTE_NORMAL`), so the attribute lookup succeeds. -/
def envFile : Native (List (List Nat)) := scripted 0x80 42 true (some garbage)

/-- The handle `opendir` returns for path `D` on the directory holding
`a.txt` and `b.bin`. -/
def openedD : win32_dir :=
  { handle := 42, info := { cFileName := [97, 46, 116, 120, 116] },
    result := { d_name := [0, 9, 9, 9, 9, 9, 9, 9] } }

/-- The state `opendir` leaves for path `D` on the directory holding `a.txt`
and `b.bin`. -/
def stateD : Sys (List (List Nat)) :=
  { os := [[98, 46, 98, 105, 110]], lastError := 0,
    trace := [Event.malloc true, Event.GetFileAttributesW pathD,
              Event.FindFirstFileW (pathD ++ starSuffix)] }

/-- The handle and the state after `opendir` and two `readdir` calls on the
directory holding `a.txt` and `b.bin`: the enumeration is exhausted. -/
def afterTwoFetches : Option win32_dir × Sys (List (List Nat)) :=
  (readdirs envD 2 stateD (some openedD)).2

/-- A path of 258 characters `a`: with `\\*` and the NUL it needs 261
elements of `wpath`. -/
def longPath : List Nat := List.replicate 258 97

/-- An exhausted handle: its search handle is `INVALID_HANDLE_VALUE`. -/
def exhaustedDir : win32_dir :=
  { handle := INVALID_HANDLE_VALUE, info := { cFileName := [98] }, result := { d_name := [98, 0] } }

/-- A name of twelve ASCII characters, `longname.txt`. -/
def longName : List Nat := [108, 111, 110, 103, 110, 97, 109, 101, 46, 116, 120, 116]

/-- A scripted operating system on which `MG_MALLOC` returns `NULL`. -/
def envNoMemory : Native (List (List Nat)) := scripted 0x10 42 true none

/-- A live handle on the scripted directory whose pending entry is `a.txt`
and whose entry buffer still holds the longer name `longname`. -/
def liveDir : win32_dir :=
  { handle := 42, info := { cFileName := [97, 46, 116, 120, 116] },
    result := { d_name := [108, 111, 110, 103, 110, 97, 109, 101] } }

/-! ## Supporting lemmas -/

theorem readdir_exhausted (env : Native σ) (s : Sys σ) (dir : win32_dir)
    (h : dir.handle = INVALID_HANDLE_VALUE) :
    readdir env s (some dir) =
      (none, some { dir with result := zeroed env }, SetLastError ERROR_FILE_NOT_FOUND s) := by
  simp [readdir, h]

theorem readdir_more (env : Native σ) (s : Sys σ) (dir : win32_dir)
    (h : dir.handle ≠ INVALID_HANDLE_VALUE)
    (hn : (env.FindNextFileW s.os dir.handle dir.info).1.1 = true) :
    readdir env s (some dir) =
      (some (transcode env dir.info.cFileName),
       some { handle := dir.handle,
              info := (env.FindNextFileW s.os dir.handle dir.info).1.2,
              result := transcode env dir.info.cFileName },
       (FindNextFileW env
          (WideCharToMultiByte env s dir.info.cFileName (zeroed env).d_name).2
          dir.handle dir.info).2) := by
  simp [readdir, h, FindNextFileW, WideCharToMultiByte, hn, transcode]

theorem readdir_last (env : Native σ) (s : Sys σ) (dir : win32_dir)
    (h : dir.handle ≠ INVALID_HANDLE_VALUE)
    (hn : (env.FindNextFileW s.os dir.handle dir.info).1.1 = false) :
    readdir env s (some dir) =
      (some (transcode env dir.info.cFileName),
       some { handle := INVALID_HANDLE_VALUE,
              info := (env.FindNextFileW s.os dir.handle dir.info).1.2,
              result := transcode env dir.info.cFileName },
       (FindClose env
          (FindNextFileW env
            (WideCharToMultiByte env s dir.info.cFileName (zeroed env).d_name).2
            dir.handle dir.info).2
          dir.handle).2) := by
  simp [readdir, h, FindNextFileW, WideCharToMultiByte, hn, transcode]

theorem readdirs_succ (env : Native σ) (k : Nat) (s : Sys σ) (d : Option win32_dir) :
    readdirs env (k + 1) s d =
      ((readdir env s d).1 :: (readdirs env k (readdir env s d).2.2 (readdir env s d).2.1).1,
       (readdirs env k (readdir env s d).2.2 (readdir env s d).2.1).2) := rfl

theorem readdirs_exhausted (env : Native σ) (m : Nat) :
    ∀ (s : Sys σ) (dir : win32_dir), dir.handle = INVALID_HANDLE_VALUE →
      (readdirs env m s (some dir)).1 = List.replicate m none := by
  induction m with
  | zero => intro s dir _; rfl
  | succ m ih =>
    intro s dir h
    rw [readdirs_succ, readdir_exhausted env s dir h, List.replicate_succ]
    exact congrArg (List.cons none) (ih _ { dir with result := zeroed env } h)

theorem readdirs_enumerates (env : Native σ) (m : Nat) (es : List (List Nat)) :
    ∀ (s : Sys σ) (dir : win32_dir), dir.handle ≠ INVALID_HANDLE_VALUE →
      Enumerates env dir.handle s.os dir.info es →
      (readdirs env (es.length + m + 1) s (some dir)).1 =
        (dir.info.cFileName :: es).map (fun e => some (transcode env e)) ++
          List.replicate m none := by
  induction es with
  | nil =>
    intro s dir h hen
    simp only [Enumerates] at hen
    simp only [List.length_nil, Nat.zero_add, List.map_cons, List.map_nil, List.cons_append,
      List.nil_append]
    rw [readdirs_succ, readdir_last env s dir h hen]
    exact congrArg (List.cons _) (readdirs_exhausted env m _ _ rfl)
  | cons e es ih =>
    intro s dir h hen
    simp only [Enumerates] at hen
    obtain ⟨hok, hname, hrest⟩ := hen
    have hlen : (e :: es).length + m + 1 = (es.length + m + 1) + 1 := by
      simp only [List.length_cons]; omega
    rw [hlen, readdirs_succ, readdir_more env s dir h hok]
    have step := ih
      (FindNextFileW env
        (WideCharToMultiByte env s dir.info.cFileName (zeroed env).d_name).2
        dir.handle dir.info).2
      { handle := dir.handle,
        info := (env.FindNextFileW s.os dir.handle dir.info).1.2,
        result := transcode env dir.info.cFileName } h hrest
    simp only [hname] at step
    simp only [List.map_cons, List.cons_append] at step ⊢
    exact congrArg (List.cons _) step

theorem closeCount_append (h : Int) (t u : List Event) :
    closeCount h (t ++ u) = closeCount h t + closeCount h u := by
  simp [closeCount, List.count_append]

theorem closeCount_closedir_exhausted (env : Native σ) (s : Sys σ) (dir : win32_dir) (h : Int)
    (hd : dir.handle = INVALID_HANDLE_VALUE) :
    closeCount h (closedir env s (some dir)).2.trace = closeCount h s.trace := by
  simp [closedir, hd, MG_FREE, closeCount_append, closeCount]

theorem closeCount_closedir_live (env : Native σ) (s : Sys σ) (dir : win32_dir)
    (hd : dir.handle ≠ INVALID_HANDLE_VALUE) :
    closeCount dir.handle (closedir env s (some dir)).2.trace =
      closeCount dir.handle s.trace + 1 := by
  simp [closedir, hd, MG_FREE, FindClose, closeCount_append, closeCount]

theorem closeCount_run_exhausted (env : Native σ) (h : Int) (k : Nat) :
    ∀ (s : Sys σ) (dir : win32_dir), dir.handle = INVALID_HANDLE_VALUE →
      closeCount h
        (closedir env (readdirs env k s (some dir)).2.2 (readdirs env k s (some dir)).2.1).2.trace =
      closeCount h s.trace := by
  induction k with
  | zero => intro s dir hd; exact closeCount_closedir_exhausted env s dir h hd
  | succ k ih =>
    intro s dir hd
    rw [readdirs_succ, readdir_exhausted env s dir hd]
    have step := ih (SetLastError ERROR_FILE_NOT_FOUND s) { dir with result := zeroed env } hd
    simp only [SetLastError, closeCount_append] at step
    simpa [closeCount] using step

theorem closeCount_run_live (env : Native σ) (k : Nat) :
    ∀ (s : Sys σ) (dir : win32_dir), dir.handle ≠ INVALID_HANDLE_VALUE →
      closeCount dir.handle
        (closedir env (readdirs env k s (some dir)).2.2 (readdirs env k s (some dir)).2.1).2.trace =
      closeCount dir.handle s.trace + 1 := by
  induction k with
  | zero => intro s dir hd; exact closeCount_closedir_live env s dir hd
  | succ k ih =>
    intro s dir hd
    rw [readdirs_succ]
    cases hn : (env.FindNextFileW s.os dir.handle dir.info).1.1 with
    | true =>
      rw [readdir_more env s dir hd hn]
      have step := ih
        (FindNextFileW env
          (WideCharToMultiByte env s dir.info.cFileName (zeroed env).d_name).2
          dir.handle dir.info).2
        { handle := dir.handle,
          info := (env.FindNextFileW s.os dir.handle dir.info).1.2,
          result := transcode env dir.info.cFileName } hd
      simp only [FindNextFileW, WideCharToMultiByte, closeCount_append] at step ⊢
      simpa [closeCount] using step
    | false =>
      rw [readdir_last env s dir hd hn]
      have step := closeCount_run_exhausted env dir.handle k
        (FindClose env
          (FindNextFileW env
            (WideCharToMultiByte env s dir.info.cFileName (zeroed env).d_name).2
            dir.handle dir.info).2
          dir.handle).2
        { handle := INVALID_HANDLE_VALUE,
          info := (env.FindNextFileW s.os dir.handle dir.info).1.2,
          result := transcode env dir.info.cFileName } rfl
      simp only [FindClose, FindNextFileW, WideCharToMultiByte, closeCount_append] at step ⊢
      simpa [closeCount] using step

theorem opendir_directory (env : Native σ) (s : Sys σ) (name : List Nat) (mem : win32_dir)
    (os1 : σ) (hm : env.malloc s.os = (some mem, os1))
    (ha : (env.GetFileAttributesW os1 (env.to_wchar name)).1 ≠ INVALID_FILE_ATTRIBUTES ∧
          (env.GetFileAttributesW os1 (env.to_wchar name)).1 &&& FILE_ATTRIBUTE_DIRECTORY ≠ 0)
    (hfit : wcscatFits (env.to_wchar name)) :
    opendir env s (some name) =
      (Opened.returned (some
          { handle := (env.FindFirstFileW
                  (env.GetFileAttributesW os1 (env.to_wchar name)).2.1
                  (env.to_wchar name ++ starSuffix)).1.1,
            info := (env.FindFirstFileW
                  (env.GetFileAttributesW os1 (env.to_wchar name)).2.1
                  (env.to_wchar name ++ starSuffix)).1.2,
            result := { d_name := mem.result.d_name.set 0 0 } }),
       { os := (env.FindFirstFileW
                  (env.GetFileAttributesW os1 (env.to_wchar name)).2.1
                  (env.to_wchar name ++ starSuffix)).2.1,
         lastError :=
           setErr (env.FindFirstFileW
                  (env.GetFileAttributesW os1 (env.to_wchar name)).2.1
                  (env.to_wchar name ++ starSuffix)).2.2
             (setErr (env.GetFileAttributesW os1 (env.to_wchar name)).2.2 s.lastError),
         trace := s.trace ++ [Event.malloc true, Event.GetFileAttributesW (env.to_wchar name),
                    Event.FindFirstFileW (env.to_wchar name ++ starSuffix)] }) := by
  simp [opendir, MG_MALLOC, hm, GetFileAttributesW, FindFirstFileW, ha, hfit]

theorem opendir_overflow (env : Native σ) (s : Sys σ) (name : List Nat) (mem : win32_dir)
    (os1 : σ) (hm : env.malloc s.os = (some mem, os1))
    (ha : (env.GetFileAttributesW os1 (env.to_wchar name)).1 ≠ INVALID_FILE_ATTRIBUTES ∧
          (env.GetFileAttributesW os1 (env.to_wchar name)).1 &&& FILE_ATTRIBUTE_DIRECTORY ≠ 0)
    (hfit : ¬ wcscatFits (env.to_wchar name)) :
    opendir env s (some name) =
      (Opened.undefined,
       { os := (env.GetFileAttributesW os1 (env.to_wchar name)).2.1,
         lastError := setErr (env.GetFileAttributesW os1 (env.to_wchar name)).2.2 s.lastError,
         trace := s.trace ++
           [Event.malloc true, Event.GetFileAttributesW (env.to_wchar name)] }) := by
  simp [opendir, MG_MALLOC, hm, GetFileAttributesW, ha, hfit]

theorem opendir_not_directory (env : Native σ) (s : Sys σ) (name : List Nat) (mem : win32_dir)
    (os1 : σ) (hm : env.malloc s.os = (some mem, os1))
    (ha : (env.GetFileAttributesW os1 (env.to_wchar name)).1 = INVALID_FILE_ATTRIBUTES ∨
          (env.GetFileAttributesW os1 (env.to_wchar name)).1 &&& FILE_ATTRIBUTE_DIRECTORY = 0) :
    opendir env s (some name) =
      (Opened.returned none,
       { os := env.free (env.GetFileAttributesW os1 (env.to_wchar name)).2.1,
         lastError := setErr (env.GetFileAttributesW os1 (env.to_wchar name)).2.2 s.lastError,
         trace := s.trace ++ [Event.malloc true, Event.GetFileAttributesW (env.to_wchar name),
                    Event.free] }) := by
  have hn : ¬ ((env.GetFileAttributesW os1 (env.to_wchar name)).1 ≠ INVALID_FILE_ATTRIBUTES ∧
      (env.GetFileAttributesW os1 (env.to_wchar name)).1 &&& FILE_ATTRIBUTE_DIRECTORY ≠ 0) := by
    rcases ha with h | h
    · exact fun c => c.1 h
    · exact fun c => c.2 h
  simp only [opendir, MG_MALLOC, hm, GetFileAttributesW, hn, if_false, MG_FREE,
    List.append_assoc, List.singleton_append, List.cons_append, List.nil_append,
    Option.isSome_some]

theorem opendir_no_memory (env : Native σ) (s : Sys σ) (name : List Nat) (os1 : σ)
    (hm : env.malloc s.os = (none, os1)) :
    opendir env s (some name) =
      (Opened.returned none,
       { os := os1, lastError := ERROR_NOT_ENOUGH_MEMORY,
         trace := s.trace ++
           [Event.malloc false, Event.SetLastError ERROR_NOT_ENOUGH_MEMORY] }) := by
  simp only [opendir, MG_MALLOC, hm, SetLastError, List.append_assoc, List.singleton_append,
    List.cons_append, List.nil_append, Option.isSome_none]

theorem opendir_cases (env : Native σ) (s : Sys σ) (name : List Nat) :
    (∃ os1, env.malloc s.os = (none, os1)) ∨
    (∃ mem os1, env.malloc s.os = (some mem, os1) ∧
      ((env.GetFileAttributesW os1 (env.to_wchar name)).1 = INVALID_FILE_ATTRIBUTES ∨
       (env.GetFileAttributesW os1 (env.to_wchar name)).1 &&& FILE_ATTRIBUTE_DIRECTORY = 0)) ∨
    (∃ mem os1, env.malloc s.os = (some mem, os1) ∧
      ((env.GetFileAttributesW os1 (env.to_wchar name)).1 ≠ INVALID_FILE_ATTRIBUTES ∧
       (env.GetFileAttributesW os1 (env.to_wchar name)).1 &&& FILE_ATTRIBUTE_DIRECTORY ≠ 0)) := by
  rcases hm : env.malloc s.os with ⟨mem, os1⟩
  cases mem with
  | none => exact Or.inl ⟨os1, rfl⟩
  | some mem =>
    right
    by_cases ha : (env.GetFileAttributesW os1 (env.to_wchar name)).1 ≠ INVALID_FILE_ATTRIBUTES ∧
        (env.GetFileAttributesW os1 (env.to_wchar name)).1 &&& FILE_ATTRIBUTE_DIRECTORY ≠ 0
    · exact Or.inr ⟨mem, os1, rfl, ha⟩
    · left
      refine ⟨mem, os1, rfl, ?_⟩
      by_cases h1 : (env.GetFileAttributesW os1 (env.to_wchar name)).1 = INVALID_FILE_ATTRIBUTES
      · exact Or.inl h1
      · right
        by_contra h2
        exact ha ⟨h1, h2⟩

theorem opendir_trace_closeCount (env : Native σ) (s : Sys σ) (name : Option (List Nat))
    (h : Int) :
    closeCount h (opendir env s name).2.trace = closeCount h s.trace := by
  cases name with
  | none => simp [opendir, SetLastError, closeCount]
  | some name =>
    rcases opendir_cases env s name with ⟨os1, hm⟩ | ⟨mem, os1, hm, ha⟩ | ⟨mem, os1, hm, ha⟩
    · rw [opendir_no_memory env s name os1 hm]; simp [closeCount]
    · rw [opendir_not_directory env s name mem os1 hm ha]; simp [closeCount]
    · by_cases hfit : wcscatFits (env.to_wchar name)
      · rw [opendir_directory env s name mem os1 hm ha hfit]; simp [closeCount]
      · rw [opendir_overflow env s name mem os1 hm ha hfit]; simp [closeCount]

/-! ## Fetching the entries of a directory -/

/-- C1: when allocation succeeds, the path is a directory (and `wcscat` stays
inside `wpath`), `FindFirstFileW` hands out a valid search handle with first
name `e1`, and the following `FindNextFileW` calls yield exactly the names
`es` and then fail, `opendir` returns a handle, and the first `es.length + 1`
calls of `readdir` on it give the transcodings of `e1 :: es` in that order,
and each of the `m` calls after them returns `NULL`. -/
theorem readdir_yields_entries_in_order (env : Native σ) (s : Sys σ) (name : List Nat)
    (mem : win32_dir) (os1 : σ) (e1 : List Nat) (es : List (List Nat)) (m : Nat)
    (hm : env.malloc s.os = (some mem, os1))
    (ha : (env.GetFileAttributesW os1 (env.to_wchar name)).1 ≠ INVALID_FILE_ATTRIBUTES ∧
          (env.GetFileAttributesW os1 (env.to_wchar name)).1 &&& FILE_ATTRIBUTE_DIRECTORY ≠ 0)
    (hfit : wcscatFits (env.to_wchar name))
    (hh : (env.FindFirstFileW (env.GetFileAttributesW os1 (env.to_wchar name)).2.1
            (env.to_wchar name ++ starSuffix)).1.1 ≠ INVALID_HANDLE_VALUE)
    (hfirst : (env.FindFirstFileW (env.GetFileAttributesW os1 (env.to_wchar name)).2.1
            (env.to_wchar name ++ starSuffix)).1.2.cFileName = e1)
    (henum : Enumerates env
        (env.FindFirstFileW (env.GetFileAttributesW os1 (env.to_wchar name)).2.1
            (env.to_wchar name ++ starSuffix)).1.1
        (env.FindFirstFileW (env.GetFileAttributesW os1 (env.to_wchar name)).2.1
            (env.to_wchar name ++ starSuffix)).2.1
        (env.FindFirstFileW (env.GetFileAttributesW os1 (env.to_wchar name)).2.1
            (env.to_wchar name ++ starSuffix)).1.2
        es) :
    ∃ dir, (opendir env s (some name)).1 = Opened.returned (some dir) ∧
      (readdirs env (es.length + 1 + m) (opendir env s (some name)).2 (some dir)).1 =
        (e1 :: es).map (fun e => some (transcode env e)) ++ List.replicate m none := by
  subst hfirst
  rw [opendir_directory env s name mem os1 hm ha hfit, Nat.add_right_comm]
  refine ⟨_, rfl, ?_⟩
  apply readdirs_enumerates env m es
  · exact hh
  · exact henum

/-- The scenario of C1: directory `D` holds `a.txt` and `b.bin`; `opendir`
returns a handle and four fetches give the two names and then `NULL` twice. -/
theorem readdir_yields_entries_in_order_witness :
    envD.malloc (start twoEntries).os = (some garbage, twoEntries) ∧
    wcscatFits (envD.to_wchar pathD) ∧
    ∃ dir, (opendir envD (start twoEntries) (some pathD)).1 = Opened.returned (some dir) ∧
      (readdirs envD 4 (opendir envD (start twoEntries) (some pathD)).2 (some dir)).1 =
        [some { d_name := [97, 46, 116, 120, 116, 0, 0, 0] },
         some { d_name := [98, 46, 98, 105, 110, 0, 0, 0] }, none, none] :=
  ⟨rfl, by decide,
   readdir_yields_entries_in_order envD (start twoEntries) pathD garbage twoEntries
    [97, 46, 116, 120, 116] [[98, 46, 98, 105, 110]] 2 rfl (by decide) (by decide) (by decide)
    rfl ⟨rfl, rfl, rfl⟩⟩

/-! ## Opening when the search cannot be started -/

/-- C2, as stated, fails: on a directory whose `FindFirstFileW` call returns
`INVALID_HANDLE_VALUE`, `opendir` returns a non-`NULL` handle that stores the
invalid value, and the storage is not freed. -/
theorem opendir_failed_search_counterexample :
    envD.malloc (start []).os = (some garbage, []) ∧
    (envD.GetFileAttributesW [] (envD.to_wchar pathD)).1 = FILE_ATTRIBUTE_DIRECTORY ∧
    (envD.FindFirstFileW [] (envD.to_wchar pathD ++ starSuffix)).1.1 = INVALID_HANDLE_VALUE ∧
    (opendir envD (start []) (some pathD)).1 =
      Opened.returned (some
        { handle := INVALID_HANDLE_VALUE, info := { cFileName := [] },
          result := { d_name := [0, 9, 9, 9, 9, 9, 9, 9] } }) ∧
    freeCount (opendir envD (start []) (some pathD)).2.trace = 0 := by
  decide

/-- C2, amended: when allocation succeeds, the path is a directory and its
converted form leaves room in `wpath` for the appended characters, `opendir`
returns a non-`NULL` handle that stores exactly the value `FindFirstFileW`
returned, valid or not, and frees nothing; so the returned handle holds a
valid search handle exactly when `FindFirstFileW` succeeded. -/
theorem opendir_stores_search_result (env : Native σ) (s : Sys σ) (name : List Nat)
    (mem : win32_dir) (os1 : σ)
    (hm : env.malloc s.os = (some mem, os1))
    (ha : (env.GetFileAttributesW os1 (env.to_wchar name)).1 ≠ INVALID_FILE_ATTRIBUTES ∧
          (env.GetFileAttributesW os1 (env.to_wchar name)).1 &&& FILE_ATTRIBUTE_DIRECTORY ≠ 0)
    (hfit : wcscatFits (env.to_wchar name)) :
    (∃ dir, (opendir env s (some name)).1 = Opened.returned (some dir) ∧
      dir.handle = (env.FindFirstFileW (env.GetFileAttributesW os1 (env.to_wchar name)).2.1
            (env.to_wchar name ++ starSuffix)).1.1) ∧
    freeCount (opendir env s (some name)).2.trace = freeCount s.trace ∧
    findFirstCount (opendir env s (some name)).2.trace = findFirstCount s.trace + 1 := by
  rw [opendir_directory env s name mem os1 hm ha hfit]
  refine ⟨⟨_, rfl, rfl⟩, ?_, ?_⟩
  · simp [freeCount]
  · simp [findFirstCount, isFindFirst]

/-- The amended C2 on a directory whose search cannot be started. -/
theorem opendir_stores_search_result_witness :
    envD.malloc (start []).os = (some garbage, []) ∧
    wcscatFits (envD.to_wchar pathD) ∧
    (∃ dir, (opendir envD (start []) (some pathD)).1 = Opened.returned (some dir) ∧
      dir.handle = INVALID_HANDLE_VALUE) ∧
    freeCount (opendir envD (start []) (some pathD)).2.trace = 0 ∧
    findFirstCount (opendir envD (start []) (some pathD)).2.trace = 1 :=
  ⟨rfl, by decide,
   opendir_stores_search_result envD (start []) pathD garbage [] rfl (by decide) (by decide)⟩

/-! ## Fetching from an exhausted handle -/

/-- C3, as stated, fails: after the two entries of the directory have been
fetched the handle is exhausted and the last-error slot holds
`ERROR_NO_MORE_FILES`; the next `readdir` returns `NULL` and overwrites the
slot with `ERROR_FILE_NOT_FOUND`. -/
theorem readdir_exhausted_lastError_counterexample :
    opendir envD (start twoEntries) (some pathD) = (Opened.returned (some openedD), stateD) ∧
    afterTwoFetches.1.map win32_dir.handle = some INVALID_HANDLE_VALUE ∧
    afterTwoFetches.2.lastError = ERROR_NO_MORE_FILES ∧
    (readdir envD afterTwoFetches.2 afterTwoFetches.1).1 = none ∧
    (readdir envD afterTwoFetches.2 afterTwoFetches.1).2.2.lastError = ERROR_FILE_NOT_FOUND ∧
    (readdir envD afterTwoFetches.2 afterTwoFetches.1).2.2.lastError ≠
      afterTwoFetches.2.lastError := by
  decide

/-- C3, amended: on a non-`NULL` handle whose search handle is already
invalid, `readdir` returns `NULL`, makes no other external call than one
`SetLastError`, and sets the last-error slot to `ERROR_FILE_NOT_FOUND`. -/
theorem readdir_exhausted_sets_file_not_found (env : Native σ) (s : Sys σ) (dir : win32_dir)
    (h : dir.handle = INVALID_HANDLE_VALUE) :
    (readdir env s (some dir)).1 = none ∧
    (readdir env s (some dir)).2.2.lastError = ERROR_FILE_NOT_FOUND ∧
    (readdir env s (some dir)).2.2.os = s.os ∧
    (readdir env s (some dir)).2.2.trace =
      s.trace ++ [Event.SetLastError ERROR_FILE_NOT_FOUND] := by
  rw [readdir_exhausted env s dir h]
  exact ⟨rfl, rfl, rfl, rfl⟩

/-- The amended C3 on an exhausted handle, starting with last error `0`. -/
theorem readdir_exhausted_sets_file_not_found_witness :
    exhaustedDir.handle = INVALID_HANDLE_VALUE ∧
    (readdir envD (start []) (some exhaustedDir)).1 = none ∧
    (readdir envD (start []) (some exhaustedDir)).2.2.lastError = ERROR_FILE_NOT_FOUND ∧
    (readdir envD (start []) (some exhaustedDir)).2.2.os = (start []).os ∧
    (readdir envD (start []) (some exhaustedDir)).2.2.trace =
      (start []).trace ++ [Event.SetLastError ERROR_FILE_NOT_FOUND] :=
  ⟨rfl, readdir_exhausted_sets_file_not_found envD (start []) exhaustedDir rfl⟩

/-! ## Releasing the search handle -/

/-- C4: for a handle returned by `opendir` that holds a valid search handle,
any number `k` of `readdir` calls followed by `closedir` calls `FindClose` on
that search handle exactly once, whatever the external calls answer. -/
theorem findClose_called_exactly_once (env : Native σ) (s s1 : Sys σ) (name : List Nat)
    (dir : win32_dir) (k : Nat)
    (hopen : opendir env s (some name) = (Opened.returned (some dir), s1))
    (hvalid : dir.handle ≠ INVALID_HANDLE_VALUE) :
    closeCount dir.handle
        (closedir env (readdirs env k s1 (some dir)).2.2
          (readdirs env k s1 (some dir)).2.1).2.trace =
      closeCount dir.handle s.trace + 1 := by
  have hs1 : closeCount dir.handle s1.trace = closeCount dir.handle s.trace := by
    have := opendir_trace_closeCount env s (some name) dir.handle
    rw [hopen] at this
    exact this
  rw [closeCount_run_live env k s1 dir hvalid, hs1]

/-- C4 on the directory holding `a.txt` and `b.bin`, closed after one fetch:
the log of the whole run holds one `FindClose 42`. -/
theorem findClose_called_exactly_once_witness :
    opendir envD (start twoEntries) (some pathD) =
      (Opened.returned (some
        { handle := 42, info := { cFileName := [97, 46, 116, 120, 116] },
          result := { d_name := [0, 9, 9, 9, 9, 9, 9, 9] } }),
       { os := [[98, 46, 98, 105, 110]], lastError := 0,
         trace := [Event.malloc true, Event.GetFileAttributesW pathD,
                   Event.FindFirstFileW (pathD ++ starSuffix)] }) ∧
    closeCount 42
        (closedir envD
          (readdirs envD 1
            { os := [[98, 46, 98, 105, 110]], lastError := 0,
              trace := [Event.malloc true, Event.GetFileAttributesW pathD,
                        Event.FindFirstFileW (pathD ++ starSuffix)] }
            (some { handle := 42, info := { cFileName := [97, 46, 116, 120, 116] },
                    result := { d_name := [0, 9, 9, 9, 9, 9, 9, 9] } })).2.2
          (readdirs envD 1
            { os := [[98, 46, 98, 105, 110]], lastError := 0,
              trace := [Event.malloc true, Event.GetFileAttributesW pathD,
                        Event.FindFirstFileW (pathD ++ starSuffix)] }
            (some { handle := 42, info := { cFileName := [97, 46, 116, 120, 116] },
                    result := { d_name := [0, 9, 9, 9, 9, 9, 9, 9] } })).2.1).2.trace =
      closeCount 42 (start twoEntries).trace + 1 :=
  ⟨rfl, findClose_called_exactly_once envD (start twoEntries) _ pathD
    { handle := 42, info := { cFileName := [97, 46, 116, 120, 116] },
      result := { d_name := [0, 9, 9, 9, 9, 9, 9, 9] } } 1 rfl (by decide)⟩

/-! ## The status of `closedir` -/

/-- C5, as stated, fails: on a live handle just returned by `opendir`, when
`FindClose` reports failure `closedir` returns `-1`. -/
theorem closedir_live_failure_counterexample :
    (opendir envCloseFails (start twoEntries) (some pathD)).1 =
      Opened.returned (some openedD) ∧
    openedD.handle ≠ INVALID_HANDLE_VALUE ∧
    (closedir envCloseFails (opendir envCloseFails (start twoEntries) (some pathD)).2
      (some openedD)).1 = -1 := by
  decide

/-- C5, amended: on a non-`NULL` handle `closedir` returns `0` exactly when
the handle is exhausted or `FindClose` reports success on its search handle;
otherwise it returns `-1`. -/
theorem closedir_status (env : Native σ) (s : Sys σ) (dir : win32_dir) :
    ((closedir env s (some dir)).1 = 0 ↔
      (dir.handle = INVALID_HANDLE_VALUE ∨ (env.FindClose s.os dir.handle).1 = true)) ∧
    ((closedir env s (some dir)).1 = 0 ∨ (closedir env s (some dir)).1 = -1) := by
  by_cases hd : dir.handle = INVALID_HANDLE_VALUE
  · simp [closedir, hd]
  · cases hc : (env.FindClose s.os dir.handle).1 <;> simp [closedir, hd, FindClose, hc]

/-! ## Opening a path that is not a directory -/

/-- C6 fails on the code at a path that names a regular file: the attribute
lookup succeeds and leaves the last-error slot alone, and the branch of
`opendir` that frees the storage and returns `NULL` has no `SetLastError`
(the two other failure branches have one), so the slot still holds `0`, which
is none of the not-found or not-a-directory codes. -/
theorem opendir_regular_file_stale_error :
    (envFile.GetFileAttributesW (start twoEntries).os (envFile.to_wchar pathD)).1 ≠
      INVALID_FILE_ATTRIBUTES ∧
    (envFile.GetFileAttributesW (start twoEntries).os (envFile.to_wchar pathD)).1 &&&
      FILE_ATTRIBUTE_DIRECTORY = 0 ∧
    (opendir envFile (start twoEntries) (some pathD)).1 = Opened.returned none ∧
    (opendir envFile (start twoEntries) (some pathD)).2.lastError = 0 ∧
    (opendir envFile (start twoEntries) (some pathD)).2.trace =
      [Event.malloc true, Event.GetFileAttributesW pathD, Event.free] ∧
    (opendir envFile (start twoEntries) (some pathD)).2.lastError ∉
      [ERROR_FILE_NOT_FOUND, ERROR_PATH_NOT_FOUND, ERROR_DIRECTORY] ∧
    (opendir envFile (start twoEntries) none).2.trace =
      [Event.SetLastError ERROR_BAD_ARGUMENTS] ∧
    (opendir envNoMemory (start twoEntries) (some pathD)).2.trace =
      [Event.malloc false, Event.SetLastError ERROR_NOT_ENOUGH_MEMORY] := by
  decide

/-! ## Opening a directory -/

/-- C7 fails on the code at a directory whose converted path has 258
characters: allocation succeeds and the attribute lookup reports a directory,
but `wcscat` needs 261 elements of `wchar_t wpath[MAX_PATH]` for the path,
the two appended characters and the NUL, so it writes past the end of `wpath`
and the call has no defined behaviour; no handle is returned. -/
theorem opendir_long_path_overflows :
    envD.malloc (start twoEntries).os = (some garbage, twoEntries) ∧
    (envD.GetFileAttributesW twoEntries (envD.to_wchar longPath)).1 = FILE_ATTRIBUTE_DIRECTORY ∧
    (envD.to_wchar longPath).length = 258 ∧
    ¬ wcscatFits (envD.to_wchar longPath) ∧
    (opendir envD (start twoEntries) (some longPath)).1 = Opened.undefined := by
  have hlen : (envD.to_wchar longPath).length = 258 := by
    show (List.replicate 258 97).length = 258
    exact List.length_replicate 258 97
  have hfit : ¬ wcscatFits (envD.to_wchar longPath) := by
    simp [wcscatFits, hlen, starSuffix, MAX_PATH]
  refine ⟨rfl, rfl, hlen, hfit, ?_⟩
  rw [opendir_overflow envD (start twoEntries) longPath garbage twoEntries rfl (by decide) hfit]

/-! ## Usage errors -/

/-- C8: `opendir` with a `NULL` path returns `NULL`, sets the last-error slot
to `ERROR_BAD_ARGUMENTS`, and its only external call is that `SetLastError`:
nothing is allocated, looked up or searched, and the hidden state is untouched. -/
theorem opendir_null_path (env : Native σ) (s : Sys σ) :
    (opendir env s none).1 = Opened.returned none ∧
    (opendir env s none).2.lastError = ERROR_BAD_ARGUMENTS ∧
    (opendir env s none).2.os = s.os ∧
    (opendir env s none).2.trace = s.trace ++ [Event.SetLastError ERROR_BAD_ARGUMENTS] :=
  ⟨rfl, rfl, rfl, rfl⟩

/-- C9: `readdir` with a `NULL` handle returns `NULL` and sets the last-error
slot to `ERROR_BAD_ARGUMENTS`; the pair of return value and last error differs
from the pair an end-of-directory fetch on any exhausted handle produces, in
whatever state that fetch starts. -/
theorem readdir_null_handle_distinct (env : Native σ) (s t : Sys σ) (dir : win32_dir)
    (h : dir.handle = INVALID_HANDLE_VALUE) :
    (readdir env s none).1 = none ∧
    (readdir env s none).2.2.lastError = ERROR_BAD_ARGUMENTS ∧
    ((readdir env s none).1, (readdir env s none).2.2.lastError) ≠
      ((readdir env t (some dir)).1, (readdir env t (some dir)).2.2.lastError) := by
  rw [readdir_exhausted env t dir h]
  refine ⟨rfl, rfl, ?_⟩
  simp [readdir, SetLastError, ERROR_BAD_ARGUMENTS, ERROR_FILE_NOT_FOUND]

/-- C9 on an exhausted handle, fetched from in the state left by reading both
entries of the directory. -/
theorem readdir_null_handle_distinct_witness :
    exhaustedDir.handle = INVALID_HANDLE_VALUE ∧
    (readdir envD (start []) none).1 = none ∧
    (readdir envD (start []) none).2.2.lastError = ERROR_BAD_ARGUMENTS ∧
    ((readdir envD (start []) none).1, (readdir envD (start []) none).2.2.lastError) ≠
      ((readdir envD afterTwoFetches.2 (some exhaustedDir)).1,
       (readdir envD afterTwoFetches.2 (some exhaustedDir)).2.2.lastError) :=
  ⟨rfl, readdir_null_handle_distinct envD (start []) afterTwoFetches.2 exhaustedDir rfl⟩

/-- C10: `closedir` with a `NULL` handle returns `-1`, sets the last-error
slot to `ERROR_BAD_ARGUMENTS`, and its only external call is that
`SetLastError`: neither `FindClose` nor `MG_FREE` is called. -/
theorem closedir_null_handle (env : Native σ) (s : Sys σ) :
    (closedir env s none).1 = -1 ∧
    (closedir env s none).2.lastError = ERROR_BAD_ARGUMENTS ∧
    (closedir env s none).2.os = s.os ∧
    (closedir env s none).2.trace = s.trace ++ [Event.SetLastError ERROR_BAD_ARGUMENTS] :=
  ⟨rfl, rfl, rfl, rfl⟩

/-! ## Entry names -/

theorem readdir_live_entry (env : Native σ) (s : Sys σ) (dir : win32_dir)
    (h : dir.handle ≠ INVALID_HANDLE_VALUE) :
    (readdir env s (some dir)).1 = some (transcode env dir.info.cFileName) ∧
    ∃ dir2, (readdir env s (some dir)).2.1 = some dir2 ∧
      dir2.result = transcode env dir.info.cFileName := by
  cases hn : (env.FindNextFileW s.os dir.handle dir.info).1.1 with
  | true => rw [readdir_more env s dir h hn]; exact ⟨rfl, _, rfl, rfl⟩
  | false => rw [readdir_last env s dir h hn]; exact ⟨rfl, _, rfl, rfl⟩

theorem unitBytes_ascii (c : Nat) (h : c < 128) : unitBytes c = [c] := by
  simp [unitBytes, h]

theorem isHigh_ascii (c : Nat) (h : c < 128) : isHigh c = false := by
  have : ¬ 0xD800 ≤ c := by omega
  simp [isHigh, this]

theorem utf8_ascii (src : List Nat) (h : ∀ c ∈ src, c < 128) : utf8 src = src := by
  unfold utf8
  induction src with
  | nil => rfl
  | cons c rest ih =>
    have hc : c < 128 := h c (List.mem_cons_self c rest)
    have hrest : ∀ d ∈ rest, d < 128 := fun d hd => h d (List.mem_cons_of_mem c hd)
    simp only [utf8From, isHigh_ascii c hc, unitBytes_ascii c hc, ih hrest]
    simp

theorem convert_fits (src buf : List Nat) (h : (utf8 src).length + 1 ≤ buf.length) :
    (convert src buf).1 = utf8 src ++ 0 :: buf.drop ((utf8 src).length + 1) := by
  have hl : (utf8 src ++ [0]).length ≤ buf.length := by simpa using h
  simp only [convert, List.take_of_length_le hl, List.append_assoc, List.singleton_append]

theorem storesUtf8_scripted (attrs : Nat) (hval : Int) (closeOk : Bool)
    (mem : Option win32_dir) : StoresUtf8 (scripted attrs hval closeOk mem) :=
  fun src buf h => convert_fits src buf h

theorem transcode_fits (env : Native σ) (hc : StoresUtf8 env) (src : List Nat)
    (hfit : (utf8 src).length + 1 ≤ env.d_name_size) :
    (transcode env src).d_name =
      utf8 src ++ List.replicate (env.d_name_size - (utf8 src).length) 0 := by
  have hz : (zeroed env).d_name.length = env.d_name_size := by simp [zeroed]
  have hsub : env.d_name_size - (utf8 src).length =
      (env.d_name_size - ((utf8 src).length + 1)) + 1 := by omega
  simp only [transcode]
  rw [hc src (zeroed env).d_name (by rw [hz]; exact hfit), hsub, List.replicate_succ]
  simp [zeroed, List.drop_replicate]

/-- C11 fails on the code for a name that does not fit: the directory holds
the single entry `longname.txt`, twelve bytes and a NUL in UTF-8, and `d_name`
has eight bytes.  `readdir` returns an entry whose `d_name` is filled to its
capacity by the first eight bytes of the name and holds no NUL: the failure of
`WideCharToMultiByte` (`ERROR_INSUFFICIENT_BUFFER`) is not looked at and
nothing terminates the buffer.  The size of the buffer is kept. -/
theorem readdir_long_name_not_terminated :
    envD.d_name_size < (utf8 longName).length + 1 ∧
    (opendir envD (start [longName]) (some pathD)).1 =
      Opened.returned (some
        { handle := 42, info := { cFileName := longName },
          result := { d_name := [0, 9, 9, 9, 9, 9, 9, 9] } }) ∧
    (readdir envD (opendir envD (start [longName]) (some pathD)).2
        (some { handle := 42, info := { cFileName := longName },
                result := { d_name := [0, 9, 9, 9, 9, 9, 9, 9] } })).1 =
      some { d_name := [108, 111, 110, 103, 110, 97, 109, 101] } ∧
    [108, 111, 110, 103, 110, 97, 109, 101].length = envD.d_name_size ∧
    (0 : Nat) ∉ [108, 111, 110, 103, 110, 97, 109, 101] := by
  decide

/-- C12: when `WideCharToMultiByte` keeps its contract for names that fit, a
live handle whose pending native name consists of ASCII characters and fits
in `d_name` together with the terminator makes `readdir` return exactly
those bytes followed by a NUL (and by zero bytes up to the capacity). -/
theorem readdir_ascii_name_roundtrip (env : Native σ) (s : Sys σ) (dir : win32_dir)
    (hc : StoresUtf8 env) (hv : dir.handle ≠ INVALID_HANDLE_VALUE)
    (hascii : ∀ c ∈ dir.info.cFileName, c < 128)
    (hfit : dir.info.cFileName.length + 1 ≤ env.d_name_size) :
    (readdir env s (some dir)).1 =
      some { d_name := dir.info.cFileName ++ 0 ::
        List.replicate (env.d_name_size - (dir.info.cFileName.length + 1)) 0 } := by
  have hu : utf8 dir.info.cFileName = dir.info.cFileName := utf8_ascii _ hascii
  have hfit2 : (utf8 dir.info.cFileName).length + 1 ≤ env.d_name_size := by rw [hu]; exact hfit
  have ht := transcode_fits env hc dir.info.cFileName hfit2
  rw [hu] at ht
  have hsub : env.d_name_size - dir.info.cFileName.length =
      (env.d_name_size - (dir.info.cFileName.length + 1)) + 1 := by omega
  rw [hsub, List.replicate_succ] at ht
  rw [(readdir_live_entry env s dir hv).1]
  exact congrArg some (congrArg dirent.mk ht)

/-- C12 on the entry `a.txt` of the scripted directory. -/
theorem readdir_ascii_name_roundtrip_witness :
    liveDir.handle ≠ INVALID_HANDLE_VALUE ∧
    liveDir.info.cFileName.length + 1 ≤ envD.d_name_size ∧
    (readdir envD (start []) (some liveDir)).1 =
      some { d_name := [97, 46, 116, 120, 116, 0, 0, 0] } :=
  ⟨by decide, by decide,
   readdir_ascii_name_roundtrip envD (start []) liveDir (storesUtf8_scripted _ _ _ _)
     (by decide) (by decide) (by decide)⟩

/-- C19: `readdir` on a non-`NULL` handle clears the entry buffer before
anything else, so what the buffer held before the call never matters; on an
exhausted handle it returns `NULL` and leaves `d_name` all zero bytes; on a
live handle whose name fits (with `WideCharToMultiByte` keeping its contract)
the returned `d_name`, which is the one stored in the handle, is the encoded
name followed by zero bytes only. -/
theorem readdir_clears_entry_buffer (env : Native σ) (s : Sys σ) (dir : win32_dir)
    (old : dirent) :
    readdir env s (some { dir with result := old }) = readdir env s (some dir) ∧
    (dir.handle = INVALID_HANDLE_VALUE →
      (readdir env s (some dir)).1 = none ∧
      (readdir env s (some dir)).2.1 =
        some { dir with result := { d_name := List.replicate env.d_name_size 0 } }) ∧
    (dir.handle ≠ INVALID_HANDLE_VALUE → StoresUtf8 env →
      (utf8 dir.info.cFileName).length + 1 ≤ env.d_name_size →
      ∃ dir2, (readdir env s (some dir)).2.1 = some dir2 ∧
        (readdir env s (some dir)).1 = some dir2.result ∧
        dir2.result.d_name = utf8 dir.info.cFileName ++
          List.replicate (env.d_name_size - (utf8 dir.info.cFileName).length) 0) := by
  refine ⟨rfl, ?_, ?_⟩
  · intro h
    rw [readdir_exhausted env s dir h]
    exact ⟨rfl, rfl⟩
  · intro hv hc hfit
    obtain ⟨hret, dir2, hdir2, hres⟩ := readdir_live_entry env s dir hv
    refine ⟨dir2, hdir2, ?_, ?_⟩
    · rw [hret, hres]
    · rw [hres]
      exact transcode_fits env hc dir.info.cFileName hfit

/-- C19 on a live handle whose buffer still holds the eight bytes of an
earlier, longer name while `a.txt` is pending. -/
theorem readdir_clears_entry_buffer_witness :
    liveDir.result.d_name = [108, 111, 110, 103, 110, 97, 109, 101] ∧
    (readdir envD (start []) (some liveDir)).1 =
      some { d_name := [97, 46, 116, 120, 116, 0, 0, 0] } ∧
    (∃ dir2, (readdir envD (start []) (some liveDir)).2.1 = some dir2 ∧
        (readdir envD (start []) (some liveDir)).1 = some dir2.result ∧
        dir2.result.d_name = utf8 liveDir.info.cFileName ++
          List.replicate (envD.d_name_size - (utf8 liveDir.info.cFileName).length) 0) :=
  ⟨rfl, by decide,
   (readdir_clears_entry_buffer envD (start []) liveDir liveDir.result).2.2 (by decide)
     (storesUtf8_scripted _ _ _ _) (by decide)⟩

/-! ## The order of the checks in `opendir` -/

/-- C13: `opendir` checks the path, then allocates, then looks the path up.
With a `NULL` path nothing is allocated; when the allocation for a
non-`NULL` path fails, `opendir` returns `NULL`, sets the last-error slot to
`ERROR_NOT_ENOUGH_MEMORY` and makes no other call, so neither the attribute
lookup nor `FindFirstFileW` runs; when it succeeds, the attribute lookup is the
call that follows it. -/
theorem opendir_check_order (env : Native σ) (s : Sys σ) (name : List Nat) :
    (opendir env s none).2.trace = s.trace ++ [Event.SetLastError ERROR_BAD_ARGUMENTS] ∧
    (∀ os1, env.malloc s.os = (none, os1) →
      (opendir env s (some name)).1 = Opened.returned none ∧
      (opendir env s (some name)).2.lastError = ERROR_NOT_ENOUGH_MEMORY ∧
      (opendir env s (some name)).2.os = os1 ∧
      (opendir env s (some name)).2.trace =
        s.trace ++ [Event.malloc false, Event.SetLastError ERROR_NOT_ENOUGH_MEMORY]) ∧
    (∀ mem os1, env.malloc s.os = (some mem, os1) →
      ∃ rest, (opendir env s (some name)).2.trace =
        s.trace ++ Event.malloc true :: Event.GetFileAttributesW (env.to_wchar name) :: rest) := by
  refine ⟨rfl, ?_, ?_⟩
  · intro os1 hm
    rw [opendir_no_memory env s name os1 hm]
    exact ⟨rfl, rfl, rfl, rfl⟩
  · intro mem os1 hm
    by_cases ha : (env.GetFileAttributesW os1 (env.to_wchar name)).1 ≠ INVALID_FILE_ATTRIBUTES ∧
        (env.GetFileAttributesW os1 (env.to_wchar name)).1 &&& FILE_ATTRIBUTE_DIRECTORY ≠ 0
    · by_cases hfit : wcscatFits (env.to_wchar name)
      · rw [opendir_directory env s name mem os1 hm ha hfit]
        exact ⟨_, rfl⟩
      · rw [opendir_overflow env s name mem os1 hm ha hfit]
        exact ⟨_, rfl⟩
    · have ha2 : (env.GetFileAttributesW os1 (env.to_wchar name)).1 = INVALID_FILE_ATTRIBUTES ∨
          (env.GetFileAttributesW os1 (env.to_wchar name)).1 &&& FILE_ATTRIBUTE_DIRECTORY = 0 := by
        by_cases h1 : (env.GetFileAttributesW os1 (env.to_wchar name)).1 = INVALID_FILE_ATTRIBUTES
        · exact Or.inl h1
        · right
          by_contra h2
          exact ha ⟨h1, h2⟩
      rw [opendir_not_directory env s name mem os1 hm ha2]
      exact ⟨_, rfl⟩

/-- C13 on the scripted operating system without memory. -/
theorem opendir_check_order_witness :
    envNoMemory.malloc (start twoEntries).os = (none, twoEntries) ∧
    (opendir envNoMemory (start twoEntries) (some pathD)).1 = Opened.returned none ∧
    (opendir envNoMemory (start twoEntries) (some pathD)).2.lastError =
      ERROR_NOT_ENOUGH_MEMORY ∧
    (opendir envNoMemory (start twoEntries) (some pathD)).2.os = twoEntries ∧
    (opendir envNoMemory (start twoEntries) (some pathD)).2.trace =
      (start twoEntries).trace ++
        [Event.malloc false, Event.SetLastError ERROR_NOT_ENOUGH_MEMORY] :=
  ⟨rfl, (opendir_check_order envNoMemory (start twoEntries) pathD).2.1 twoEntries rfl⟩

/-! ## Writes to the last-error slot -/

theorem setLastErrorCount_append (t u : List Event) :
    setLastErrorCount (t ++ u) = setLastErrorCount t + setLastErrorCount u := by
  simp [setLastErrorCount, List.countP_append]

theorem opendir_success_no_write (env : Native σ) (s : Sys σ) (name : Option (List Nat))
    (h : (opendir env s name).1 ≠ Opened.returned none) :
    setLastErrorCount (opendir env s name).2.trace = setLastErrorCount s.trace := by
  cases name with
  | none => exact absurd rfl h
  | some name =>
    rcases opendir_cases env s name with ⟨os1, hm⟩ | ⟨mem, os1, hm, ha⟩ | ⟨mem, os1, hm, ha⟩
    · rw [opendir_no_memory env s name os1 hm] at h
      exact absurd rfl h
    · rw [opendir_not_directory env s name mem os1 hm ha] at h
      exact absurd rfl h
    · by_cases hfit : wcscatFits (env.to_wchar name)
      · rw [opendir_directory env s name mem os1 hm ha hfit]
        simp [setLastErrorCount_append, setLastErrorCount, isSetLastError]
      · rw [opendir_overflow env s name mem os1 hm ha hfit]
        simp [setLastErrorCount_append, setLastErrorCount, isSetLastError]

theorem readdir_success_no_write (env : Native σ) (s : Sys σ) (d : Option win32_dir)
    (h : (readdir env s d).1 ≠ none) :
    setLastErrorCount (readdir env s d).2.2.trace = setLastErrorCount s.trace := by
  cases d with
  | none => exact absurd rfl h
  | some dir =>
    by_cases hv : dir.handle = INVALID_HANDLE_VALUE
    · rw [readdir_exhausted env s dir hv] at h
      exact absurd rfl h
    · cases hn : (env.FindNextFileW s.os dir.handle dir.info).1.1 with
      | true =>
        rw [readdir_more env s dir hv hn]
        simp [FindNextFileW, WideCharToMultiByte, setLastErrorCount_append, setLastErrorCount,
          isSetLastError]
      | false =>
        rw [readdir_last env s dir hv hn]
        simp [FindClose, FindNextFileW, WideCharToMultiByte, setLastErrorCount_append,
          setLastErrorCount, isSetLastError]

theorem closedir_some_no_write (env : Native σ) (s : Sys σ) (dir : win32_dir) :
    setLastErrorCount (closedir env s (some dir)).2.trace = setLastErrorCount s.trace := by
  by_cases hv : dir.handle = INVALID_HANDLE_VALUE
  · simp [closedir, hv, MG_FREE, setLastErrorCount_append, setLastErrorCount, isSetLastError]
  · simp [closedir, hv, MG_FREE, FindClose, setLastErrorCount_append, setLastErrorCount,
      isSetLastError]

/-- C14: on every success path the layer makes no `SetLastError` call: when
`opendir` does not return `NULL`, when `readdir` returns an entry and when
`closedir` returns `0`, the number of `SetLastError` calls in the log is what
it was before the call, so the slot holds what the native calls left in it. -/
theorem no_write_on_success (env : Native σ) (s : Sys σ) (name : Option (List Nat))
    (d : Option win32_dir) :
    ((opendir env s name).1 ≠ Opened.returned none →
      setLastErrorCount (opendir env s name).2.trace = setLastErrorCount s.trace) ∧
    ((readdir env s d).1 ≠ none →
      setLastErrorCount (readdir env s d).2.2.trace = setLastErrorCount s.trace) ∧
    ((closedir env s d).1 = 0 →
      setLastErrorCount (closedir env s d).2.trace = setLastErrorCount s.trace) := by
  refine ⟨opendir_success_no_write env s name, readdir_success_no_write env s d, ?_⟩
  intro h
  cases d with
  | none => simp [closedir] at h
  | some dir => exact closedir_some_no_write env s dir

/-- C14 on the scripted directory: opening it, fetching from a live handle
and closing that handle each leave the count of `SetLastError` calls at `0`. -/
theorem no_write_on_success_witness :
    (opendir envD (start twoEntries) (some pathD)).1 = Opened.returned (some openedD) ∧
    (opendir envD (start twoEntries) (some pathD)).1 ≠ Opened.returned none ∧
    (readdir envD (start twoEntries) (some liveDir)).1 ≠ none ∧
    (closedir envD (start twoEntries) (some liveDir)).1 = 0 ∧
    setLastErrorCount (opendir envD (start twoEntries) (some pathD)).2.trace =
      setLastErrorCount (start twoEntries).trace ∧
    setLastErrorCount (readdir envD (start twoEntries) (some liveDir)).2.2.trace =
      setLastErrorCount (start twoEntries).trace ∧
    setLastErrorCount (closedir envD (start twoEntries) (some liveDir)).2.trace =
      setLastErrorCount (start twoEntries).trace :=
  ⟨by decide, by decide, by decide, by decide,
   (no_write_on_success envD (start twoEntries) (some pathD) (some liveDir)).1 (by decide),
   (no_write_on_success envD (start twoEntries) (some pathD) (some liveDir)).2.1 (by decide),
   (no_write_on_success envD (start twoEntries) (some pathD) (some liveDir)).2.2 (by decide)⟩

/-! ## Exhaustion -/

theorem readdirs_exhausted_state (env : Native σ) (m : Nat) :
    ∀ (s : Sys σ) (dir : win32_dir), dir.handle = INVALID_HANDLE_VALUE →
      (readdirs env m s (some dir)).2.2.os = s.os ∧
      (readdirs env m s (some dir)).2.2.trace =
        s.trace ++ List.replicate m (Event.SetLastError ERROR_FILE_NOT_FOUND) ∧
      ∃ dir2, (readdirs env m s (some dir)).2.1 = some dir2 ∧
        dir2.handle = INVALID_HANDLE_VALUE := by
  induction m with
  | zero => intro s dir h; exact ⟨rfl, by simp [readdirs], dir, rfl, h⟩
  | succ m ih =>
    intro s dir h
    rw [readdirs_succ, readdir_exhausted env s dir h]
    obtain ⟨hos, htr, dir2, hd, hh⟩ :=
      ih (SetLastError ERROR_FILE_NOT_FOUND s) { dir with result := zeroed env } h
    refine ⟨hos, ?_, dir2, hd, hh⟩
    rw [htr]
    simp [SetLastError, List.replicate_succ]

/-- C15: when `FindNextFileW` fails inside a `readdir` call on a live handle,
that call still returns the pending entry, calls `FindClose` on the search
handle at once and stores `INVALID_HANDLE_VALUE`; each of the `m` calls that
follow returns `NULL`, and all they add to the log are their `SetLastError`
calls: no `FindNextFileW`, no `FindClose`, no `WideCharToMultiByte`, and the
hidden state stays as it is. -/
theorem readdir_releases_on_exhaustion (env : Native σ) (s : Sys σ) (dir : win32_dir)
    (m : Nat) (hv : dir.handle ≠ INVALID_HANDLE_VALUE)
    (hn : (env.FindNextFileW s.os dir.handle dir.info).1.1 = false) :
    (readdir env s (some dir)).1 = some (transcode env dir.info.cFileName) ∧
    ∃ dir2 s2, (readdir env s (some dir)).2 = (some dir2, s2) ∧
      dir2.handle = INVALID_HANDLE_VALUE ∧
      s2.trace = s.trace ++ [Event.WideCharToMultiByte dir.info.cFileName,
        Event.FindNextFileW dir.handle, Event.FindClose dir.handle] ∧
      (readdirs env m s2 (some dir2)).1 = List.replicate m none ∧
      (readdirs env m s2 (some dir2)).2.2.os = s2.os ∧
      (readdirs env m s2 (some dir2)).2.2.trace =
        s2.trace ++ List.replicate m (Event.SetLastError ERROR_FILE_NOT_FOUND) := by
  rw [readdir_last env s dir hv hn]
  refine ⟨rfl, _, _, rfl, rfl, ?_, ?_, ?_, ?_⟩
  · simp [FindClose, FindNextFileW, WideCharToMultiByte]
  · exact readdirs_exhausted env m _ _ rfl
  · exact (readdirs_exhausted_state env m _ _ rfl).1
  · exact (readdirs_exhausted_state env m _ _ rfl).2.1

/-- C15 on a live handle of the scripted directory with no further entry,
followed by two more fetches. -/
theorem readdir_releases_on_exhaustion_witness :
    liveDir.handle ≠ INVALID_HANDLE_VALUE ∧
    (envD.FindNextFileW (start []).os liveDir.handle liveDir.info).1.1 = false ∧
    (readdir envD (start []) (some liveDir)).1 = some (transcode envD liveDir.info.cFileName) ∧
    ∃ dir2 s2, (readdir envD (start []) (some liveDir)).2 = (some dir2, s2) ∧
      dir2.handle = INVALID_HANDLE_VALUE ∧
      s2.trace = (start []).trace ++ [Event.WideCharToMultiByte liveDir.info.cFileName,
        Event.FindNextFileW liveDir.handle, Event.FindClose liveDir.handle] ∧
      (readdirs envD 2 s2 (some dir2)).1 = List.replicate 2 none ∧
      (readdirs envD 2 s2 (some dir2)).2.2.os = s2.os ∧
      (readdirs envD 2 s2 (some dir2)).2.2.trace =
        s2.trace ++ List.replicate 2 (Event.SetLastError ERROR_FILE_NOT_FOUND) :=
  ⟨by decide, rfl,
   readdir_releases_on_exhaustion envD (start []) liveDir 2 (by decide) rfl⟩

/-! ## Resources on the failure paths of `opendir` -/

/-- C16: whenever `opendir` returns `NULL`, its part of the log holds no
`FindFirstFileW` call, so no search handle is held, and as many `MG_FREE`
calls as `MG_MALLOC` calls that returned storage: allocations and frees,
both counted in the log, are equal. -/
theorem opendir_null_leaks_nothing (env : Native σ) (s : Sys σ) (name : Option (List Nat))
    (h : (opendir env s name).1 = Opened.returned none) :
    findFirstCount (opendir env s name).2.trace = findFirstCount s.trace ∧
    allocCount (opendir env s name).2.trace + freeCount s.trace =
      freeCount (opendir env s name).2.trace + allocCount s.trace := by
  cases name with
  | none =>
    simp [opendir, SetLastError, findFirstCount, freeCount, allocCount, isFindFirst]
    omega
  | some name =>
    rcases opendir_cases env s name with ⟨os1, hm⟩ | ⟨mem, os1, hm, ha⟩ | ⟨mem, os1, hm, ha⟩
    · rw [opendir_no_memory env s name os1 hm]
      simp [findFirstCount, freeCount, allocCount, isFindFirst]
      omega
    · rw [opendir_not_directory env s name mem os1 hm ha]
      simp [findFirstCount, freeCount, allocCount, isFindFirst]
      omega
    · by_cases hfit : wcscatFits (env.to_wchar name)
      · rw [opendir_directory env s name mem os1 hm ha hfit] at h
        exact absurd h (by simp)
      · rw [opendir_overflow env s name mem os1 hm ha hfit] at h
        exact absurd h (by simp)

/-- C16 on a path that names a regular file: one allocation, one free, no
search. -/
theorem opendir_null_leaks_nothing_witness :
    (opendir envFile (start twoEntries) (some pathD)).1 = Opened.returned none ∧
    allocCount (opendir envFile (start twoEntries) (some pathD)).2.trace = 1 ∧
    freeCount (opendir envFile (start twoEntries) (some pathD)).2.trace = 1 ∧
    findFirstCount (opendir envFile (start twoEntries) (some pathD)).2.trace =
      findFirstCount (start twoEntries).trace ∧
    allocCount (opendir envFile (start twoEntries) (some pathD)).2.trace +
        freeCount (start twoEntries).trace =
      freeCount (opendir envFile (start twoEntries) (some pathD)).2.trace +
        allocCount (start twoEntries).trace :=
  ⟨by decide, by decide, by decide,
   opendir_null_leaks_nothing envFile (start twoEntries) (some pathD) (by decide)⟩

/-! ## The stored search handle -/

theorem readdirs_add (env : Native σ) (k j : Nat) :
    ∀ (s : Sys σ) (d : Option win32_dir),
      (readdirs env (k + j) s d).2 =
        (readdirs env j (readdirs env k s d).2.2 (readdirs env k s d).2.1).2 := by
  induction k with
  | zero => intro s d; simp [readdirs]
  | succ k ih =>
    intro s d
    rw [Nat.succ_add, readdirs_succ, readdirs_succ]
    exact ih _ _

theorem readdirs_handle (env : Native σ) (k : Nat) :
    ∀ (s : Sys σ) (dir : win32_dir),
      ∃ dir2, (readdirs env k s (some dir)).2.1 = some dir2 ∧
        (dir2.handle = dir.handle ∨ dir2.handle = INVALID_HANDLE_VALUE) := by
  induction k with
  | zero => intro s dir; exact ⟨dir, rfl, Or.inl rfl⟩
  | succ k ih =>
    intro s dir
    rw [readdirs_succ]
    by_cases hv : dir.handle = INVALID_HANDLE_VALUE
    · rw [readdir_exhausted env s dir hv]
      obtain ⟨dir2, hd, hh⟩ :=
        ih (SetLastError ERROR_FILE_NOT_FOUND s) { dir with result := zeroed env }
      exact ⟨dir2, hd, hh⟩
    · cases hn : (env.FindNextFileW s.os dir.handle dir.info).1.1 with
      | true =>
        rw [readdir_more env s dir hv hn]
        obtain ⟨dir2, hd, hh⟩ := ih
          (FindNextFileW env
            (WideCharToMultiByte env s dir.info.cFileName (zeroed env).d_name).2
            dir.handle dir.info).2
          { handle := dir.handle,
            info := (env.FindNextFileW s.os dir.handle dir.info).1.2,
            result := transcode env dir.info.cFileName }
        exact ⟨dir2, hd, hh⟩
      | false =>
        rw [readdir_last env s dir hv hn]
        obtain ⟨dir2, hd, hh⟩ := ih
          (FindClose env
            (FindNextFileW env
              (WideCharToMultiByte env s dir.info.cFileName (zeroed env).d_name).2
              dir.handle dir.info).2
            dir.handle).2
          { handle := INVALID_HANDLE_VALUE,
            info := (env.FindNextFileW s.os dir.handle dir.info).1.2,
            result := transcode env dir.info.cFileName }
        refine ⟨dir2, hd, Or.inr ?_⟩
        rcases hh with hh | hh <;> exact hh

theorem count_findClose_other (h h2 : Int) (hne : h ≠ h2) :
    List.count (Event.FindClose h) [Event.FindClose h2] = 0 ∧
    List.count (Event.FindClose h) [Event.FindClose h2, Event.free] = 0 :=
  ⟨List.count_eq_zero.mpr (by simp [hne]), List.count_eq_zero.mpr (by simp [hne])⟩

theorem closeCount_run_other (env : Native σ) (h : Int) (k : Nat) :
    ∀ (s : Sys σ) (dir : win32_dir), h ≠ dir.handle →
      closeCount h
        (closedir env (readdirs env k s (some dir)).2.2 (readdirs env k s (some dir)).2.1).2.trace =
      closeCount h s.trace := by
  induction k with
  | zero =>
    intro s dir hne
    by_cases hv : dir.handle = INVALID_HANDLE_VALUE
    · exact closeCount_closedir_exhausted env s dir h hv
    · simp [readdirs, closedir, hv, MG_FREE, FindClose, closeCount_append, closeCount,
        (count_findClose_other h dir.handle hne).2]
  | succ k ih =>
    intro s dir hne
    by_cases hv : dir.handle = INVALID_HANDLE_VALUE
    · exact closeCount_run_exhausted env h (k + 1) s dir hv
    · rw [readdirs_succ]
      cases hn : (env.FindNextFileW s.os dir.handle dir.info).1.1 with
      | true =>
        rw [readdir_more env s dir hv hn]
        have step := ih
          (FindNextFileW env
            (WideCharToMultiByte env s dir.info.cFileName (zeroed env).d_name).2
            dir.handle dir.info).2
          { handle := dir.handle,
            info := (env.FindNextFileW s.os dir.handle dir.info).1.2,
            result := transcode env dir.info.cFileName } hne
        simp only [FindNextFileW, WideCharToMultiByte, closeCount_append] at step ⊢
        simpa [closeCount] using step
      | false =>
        rw [readdir_last env s dir hv hn]
        have step := closeCount_run_exhausted env h k
          (FindClose env
            (FindNextFileW env
              (WideCharToMultiByte env s dir.info.cFileName (zeroed env).d_name).2
              dir.handle dir.info).2
            dir.handle).2
          { handle := INVALID_HANDLE_VALUE,
            info := (env.FindNextFileW s.os dir.handle dir.info).1.2,
            result := transcode env dir.info.cFileName } rfl
        simp only [FindClose, FindNextFileW, WideCharToMultiByte, closeCount_append] at step ⊢
        simpa [closeCount, (count_findClose_other h dir.handle hne).1] using step

theorem closeCount_invalid_run (env : Native σ) (k : Nat) (s : Sys σ) (dir : win32_dir) :
    closeCount INVALID_HANDLE_VALUE
      (closedir env (readdirs env k s (some dir)).2.2 (readdirs env k s (some dir)).2.1).2.trace =
    closeCount INVALID_HANDLE_VALUE s.trace := by
  by_cases hv : dir.handle = INVALID_HANDLE_VALUE
  · exact closeCount_run_exhausted env INVALID_HANDLE_VALUE k s dir hv
  · exact closeCount_run_other env INVALID_HANDLE_VALUE k s dir (fun c => hv c.symm)

/-- C17: let `opendir` succeed (allocation succeeds, the path is a directory
and `wcscat` stays inside `wpath`); the handle it returns stores the value
`FindFirstFileW` returned.  After any `k` calls of `readdir` the stored search
handle is that value or `INVALID_HANDLE_VALUE`; once it is
`INVALID_HANDLE_VALUE` it is so after any `j` further calls; over the whole
run closed by `closedir`, `FindClose` is never called with
`INVALID_HANDLE_VALUE`, and when `FindFirstFileW` failed at open `FindClose`
is not called on any handle. -/
theorem handle_state_invariant (env : Native σ) (s : Sys σ) (name : List Nat)
    (mem : win32_dir) (os1 : σ) (k j : Nat)
    (hm : env.malloc s.os = (some mem, os1))
    (ha : (env.GetFileAttributesW os1 (env.to_wchar name)).1 ≠ INVALID_FILE_ATTRIBUTES ∧
          (env.GetFileAttributesW os1 (env.to_wchar name)).1 &&& FILE_ATTRIBUTE_DIRECTORY ≠ 0)
    (hfit : wcscatFits (env.to_wchar name)) :
    ∃ dir0 s1, opendir env s (some name) = (Opened.returned (some dir0), s1) ∧
      dir0.handle = firstSearch env os1 name ∧
      (∃ dir2, (session env s1 dir0 k).1 = some dir2 ∧
        (dir2.handle = firstSearch env os1 name ∨ dir2.handle = INVALID_HANDLE_VALUE) ∧
        (dir2.handle = INVALID_HANDLE_VALUE →
          ∃ dir3, (session env s1 dir0 (k + j)).1 = some dir3 ∧
            dir3.handle = INVALID_HANDLE_VALUE)) ∧
      closeCount INVALID_HANDLE_VALUE (closedSession env s1 dir0 k).2.trace =
        closeCount INVALID_HANDLE_VALUE s.trace ∧
      (firstSearch env os1 name = INVALID_HANDLE_VALUE →
        ∀ h, closeCount h (closedSession env s1 dir0 k).2.trace = closeCount h s.trace) := by
  have key : ∃ dir0 s1, opendir env s (some name) = (Opened.returned (some dir0), s1) ∧
      dir0.handle = firstSearch env os1 name :=
    ⟨_, _, opendir_directory env s name mem os1 hm ha hfit, rfl⟩
  obtain ⟨dir0, s1, ho, hh0⟩ := key
  have htr : ∀ h, closeCount h s1.trace = closeCount h s.trace := by
    intro h
    have := opendir_trace_closeCount env s (some name) h
    rw [ho] at this
    exact this
  refine ⟨dir0, s1, ho, hh0, ?_, ?_, ?_⟩
  · simp only [session]
    obtain ⟨dir2, hd, hh⟩ := readdirs_handle env k s1 dir0
    refine ⟨dir2, hd, hh0 ▸ hh, ?_⟩
    intro hinv
    obtain ⟨_, _, dir3, hd3, hh3⟩ :=
      readdirs_exhausted_state env j (readdirs env k s1 (some dir0)).2.2 dir2 hinv
    refine ⟨dir3, ?_, hh3⟩
    rw [readdirs_add env k j s1 (some dir0), hd]
    exact hd3
  · simp only [closedSession, session]
    rw [← htr INVALID_HANDLE_VALUE]
    exact closeCount_invalid_run env k s1 dir0
  · intro hf h
    simp only [closedSession, session]
    rw [← htr h]
    exact closeCount_run_exhausted env h k s1 dir0 (hh0.trans hf)

/-- C17 on the directory holding `a.txt` and `b.bin`: after two fetches the
stored handle is invalid and stays so after a third. -/
theorem handle_state_invariant_witness :
    envD.malloc (start twoEntries).os = (some garbage, twoEntries) ∧
    firstSearch envD twoEntries pathD = 42 ∧
    wcscatFits (envD.to_wchar pathD) ∧
    ∃ dir0 s1, opendir envD (start twoEntries) (some pathD) =
        (Opened.returned (some dir0), s1) ∧
      dir0.handle = firstSearch envD twoEntries pathD ∧
      (∃ dir2, (session envD s1 dir0 2).1 = some dir2 ∧
        (dir2.handle = firstSearch envD twoEntries pathD ∨
          dir2.handle = INVALID_HANDLE_VALUE) ∧
        (dir2.handle = INVALID_HANDLE_VALUE →
          ∃ dir3, (session envD s1 dir0 (2 + 1)).1 = some dir3 ∧
            dir3.handle = INVALID_HANDLE_VALUE)) ∧
      closeCount INVALID_HANDLE_VALUE (closedSession envD s1 dir0 2).2.trace =
        closeCount INVALID_HANDLE_VALUE (start twoEntries).trace ∧
      (firstSearch envD twoEntries pathD = INVALID_HANDLE_VALUE →
        ∀ h, closeCount h (closedSession envD s1 dir0 2).2.trace =
          closeCount h (start twoEntries).trace) :=
  ⟨rfl, rfl, by decide,
   handle_state_invariant envD (start twoEntries) pathD garbage twoEntries 2 1 rfl
    (by decide) (by decide)⟩

/-! ## The failure status of `closedir` -/

/-- C18: `closedir` returns `-1` exactly when the handle is `NULL`, or holds
a valid search handle on which `FindClose` reports failure; for every
non-`NULL` handle it calls `MG_FREE` once, also when `FindClose` fails, and
it makes no `SetLastError` call then. -/
theorem closedir_failure_iff (env : Native σ) (s : Sys σ) (d : Option win32_dir) :
    ((closedir env s d).1 = -1 ↔
      (d = none ∨ ∃ dir, d = some dir ∧ dir.handle ≠ INVALID_HANDLE_VALUE ∧
        (env.FindClose s.os dir.handle).1 = false)) ∧
    (d ≠ none → freeCount (closedir env s d).2.trace = freeCount s.trace + 1) ∧
    (d ≠ none → setLastErrorCount (closedir env s d).2.trace = setLastErrorCount s.trace) := by
  cases d with
  | none => simp [closedir]
  | some dir =>
    refine ⟨?_, ?_, fun _ => closedir_some_no_write env s dir⟩
    · by_cases hv : dir.handle = INVALID_HANDLE_VALUE
      · simp [closedir, hv]
      · cases hc : (env.FindClose s.os dir.handle).1 <;> simp [closedir, hv, FindClose, hc]
    · intro _
      by_cases hv : dir.handle = INVALID_HANDLE_VALUE
      · simp [closedir, hv, MG_FREE, freeCount]
      · simp [closedir, hv, MG_FREE, FindClose, freeCount]

/-- C18 on a live handle whose `FindClose` fails: status `-1`, one `MG_FREE`,
no `SetLastError`. -/
theorem closedir_failure_iff_witness :
    (closedir envCloseFails (start twoEntries) (some liveDir)).1 = -1 ∧
    (some liveDir ≠ none →
      freeCount (closedir envCloseFails (start twoEntries) (some liveDir)).2.trace =
        freeCount (start twoEntries).trace + 1) ∧
    (some liveDir ≠ none →
      setLastErrorCount (closedir envCloseFails (start twoEntries) (some liveDir)).2.trace =
        setLastErrorCount (start twoEntries).trace) :=
  ⟨((closedir_failure_iff envCloseFails (start twoEntries) (some liveDir)).1).2
      (Or.inr ⟨liveDir, rfl, by decide, rfl⟩),
   (closedir_failure_iff envCloseFails (start twoEntries) (some liveDir)).2⟩

end CsDirent
